import Mathlib

/-!
Verification of the Vulkan cube renderer (`src/vulkan_app`) against its
natural-language specification.  The Rust sources are shallowly embedded:
pure selection helpers become Lean functions, the handle-creating and
handle-destroying code of `VulkanApp::new`, `recreate_swapchain`,
`cleanup_swapchain` and `Drop::drop` is embedded as explicit threading of a
fresh-handle counter together with an event trace, and `draw_frame` is
embedded as a function from the acquire/present results supplied by the
platform to the ordered list of per-tick steps it performs.
-/

namespace VulkanCube

/-! ## Geometry fixture (`src/vulkan_app/vertex.rs`)

`Vertex` holds a position and a color, three `f32` each; every literal in the
fixture is a small dyadic rational, so the coordinates are embedded exactly
as rationals. -/

structure Vertex where
  pos : ℚ × ℚ × ℚ
  color : ℚ × ℚ × ℚ
deriving DecidableEq

/-- The 8 cube corners from `VERTICES` in `vertex.rs`. -/
def VERTICES : List Vertex :=
  [ ⟨(-0.5, -0.5, 0.0), (1.0, 0.0, 0.0)⟩,
    ⟨(0.5, -0.5, 0.0), (0.0, 1.0, 0.0)⟩,
    ⟨(0.5, 0.5, 0.0), (0.0, 0.0, 1.0)⟩,
    ⟨(-0.5, 0.5, 0.0), (1.0, 1.0, 1.0)⟩,
    ⟨(-0.5, -0.5, -0.5), (1.0, 0.0, 0.0)⟩,
    ⟨(0.5, -0.5, -0.5), (0.0, 1.0, 0.0)⟩,
    ⟨(0.5, 0.5, -0.5), (0.0, 0.0, 1.0)⟩,
    ⟨(-0.5, 0.5, -0.5), (1.0, 1.0, 1.0)⟩ ]

/-- The 36 sixteen-bit indices from `INDICES` in `vertex.rs`; every value is
far below `2^16`, so they are embedded as naturals. -/
def INDICES : List ℕ :=
  [ 0, 1, 2, 2, 3, 0,
    4, 6, 5, 4, 7, 6,
    0, 7, 4, 0, 3, 7,
    1, 5, 6, 6, 2, 1,
    3, 2, 6, 6, 7, 3,
    0, 5, 1, 5, 0, 4 ]

/-! ## Swapchain format / present-mode selection (`app.rs`)

Vulkan enumeration values are embedded by their numeric codes from the
Vulkan headers: `VK_FORMAT_B8G8R8A8_SRGB = 50`,
`VK_COLOR_SPACE_SRGB_NONLINEAR_KHR = 0`, `VK_PRESENT_MODE_MAILBOX_KHR = 1`,
`VK_PRESENT_MODE_FIFO_KHR = 2`. -/

def B8G8R8A8_SRGB : ℕ := 50

def SRGB_NONLINEAR : ℕ := 0

def MAILBOX : ℕ := 1

def FIFO : ℕ := 2

structure SurfaceFormatKHR where
  format : ℕ
  color_space : ℕ
deriving DecidableEq

/-- `choose_swap_surface_format` (`app.rs:474`): find the entry with format
`B8G8R8A8_SRGB` and color space `SRGB_NONLINEAR`, else fall back to the first
entry.  The Rust `unwrap_or(&available_formats[0])` panics on an empty slice;
the panic is embedded as `none`. -/
def choose_swap_surface_format (available_formats : List SurfaceFormatKHR) :
    Option SurfaceFormatKHR :=
  match available_formats.find? (fun f =>
      f.format == B8G8R8A8_SRGB && f.color_space == SRGB_NONLINEAR) with
  | some f => some f
  | none => available_formats[0]?

/-- `choose_swap_present_mode` (`app.rs:486`): find `MAILBOX`, else return
`FIFO`. -/
def choose_swap_present_mode (available_present_modes : List ℕ) : ℕ :=
  match available_present_modes.find? (fun mode => mode == MAILBOX) with
  | some mode => mode
  | none => FIFO

/-- The preferred-format predicate of `choose_swap_surface_format`, as a
proposition. -/
def IsPreferredFormat (f : SurfaceFormatKHR) : Prop :=
  f.format = B8G8R8A8_SRGB ∧ f.color_space = SRGB_NONLINEAR

instance : DecidablePred IsPreferredFormat := fun f =>
  decidable_of_iff (f.format = B8G8R8A8_SRGB ∧ f.color_space = SRGB_NONLINEAR)
    Iff.rfl

/-! ## Handle-level embedding of `VulkanApp` (`app.rs`)

Every Vulkan handle created by the app is embedded as a natural number drawn
from a single fresh counter, and every creation or destruction call is
recorded as an `Event`.  Each `create_*` function of `app.rs` becomes a Lean
function from the current counter to its result, the next counter value, and
the list of events it performs, concatenated by the callers in source
order. -/

inductive BufferUsage where
  | vertex
  | index
  | uniform
deriving DecidableEq

inductive Event where
  | createInstance (h : ℕ)
  | createDebugMessenger (h : ℕ)
  | createSurface (h : ℕ)
  | createDevice (h : ℕ)
  | createBuffer (usage : BufferUsage) (buf mem : ℕ)
  | createSwapchain (h : ℕ)
  | createImageView (h : ℕ)
  | createDescriptorSetLayout (h : ℕ)
  | createRenderPass (h : ℕ)
  | createShaderModule (h : ℕ)
  | createPipelineLayout (h : ℕ)
  | createGraphicsPipeline (h : ℕ)
  | createImage (img mem : ℕ)
  | createFramebuffer (h : ℕ)
  | createCommandPool (h : ℕ)
  | allocateCommandBuffers (hs : List ℕ)
  | createSemaphore (h : ℕ)
  | createFence (h : ℕ)
  | createDescriptorPool (h : ℕ)
  | allocateDescriptorSets (hs : List ℕ)
  | updateDescriptorSet (set buf : ℕ)
  | deviceWaitIdle
  | destroyBuffer (h : ℕ)
  | freeMemory (h : ℕ)
  | destroyFramebuffer (h : ℕ)
  | destroyPipeline (h : ℕ)
  | destroyDescriptorPool (h : ℕ)
  | destroyPipelineLayout (h : ℕ)
  | destroyRenderPass (h : ℕ)
  | destroyImageView (h : ℕ)
  | destroyImage (h : ℕ)
  | destroyShaderModule (h : ℕ)
  | destroySwapchain (h : ℕ)
  | destroySemaphore (h : ℕ)
  | destroyFence (h : ℕ)
  | destroyCommandPool (h : ℕ)
  | destroyDescriptorSetLayout (h : ℕ)
  | destroyDevice (h : ℕ)
  | destroySurface (h : ℕ)
  | destroyDebugMessenger (h : ℕ)
  | destroyInstance (h : ℕ)
deriving DecidableEq

/-- Result of a handle-creating operation: the produced value, the next
fresh-counter value, and the events performed, in order. -/
structure Res (α : Type) where
  val : α
  next : ℕ
  events : List Event
deriving DecidableEq

/-- Allocate one fresh handle, recording the given creation event. -/
def alloc1 (mk : ℕ → Event) (n : ℕ) : Res ℕ :=
  ⟨n, n + 1, [mk n]⟩

/-- The platform environment a build runs against: the number of images the
swapchain reports (`get_swapchain_images`). -/
structure Env where
  imageCount : ℕ
deriving DecidableEq

/-- The handle fields of the `VulkanApp` struct (`app.rs:14`). -/
structure VulkanAppSt where
  instance_h : ℕ
  debug_messenger : ℕ
  surface : ℕ
  device : ℕ
  swapchain : ℕ
  swapchain_images : List ℕ
  swapchain_image_views : List ℕ
  render_pass : ℕ
  pipeline_layout : ℕ
  graphics_pipeline : ℕ
  framebuffers : List ℕ
  command_pool : ℕ
  command_buffers : List ℕ
  image_available_semaphore : ℕ
  render_finished_semaphore : ℕ
  in_flight_fence : ℕ
  framebuffer_resized : Bool
  vertex_buffer : ℕ
  vertex_buffer_memory : ℕ
  index_buffer : ℕ
  index_buffer_memory : ℕ
  uniform_buffers : List ℕ
  uniform_buffers_memory : List ℕ
  descriptor_set_layout : ℕ
  descriptor_pool : ℕ
  descriptor_sets : List ℕ
  depth_image : ℕ
  depth_image_memory : ℕ
  depth_image_view : ℕ
deriving DecidableEq

/-- `create_instance` (`app.rs:207`). -/
def create_instance (n : ℕ) : Res ℕ := alloc1 .createInstance n

/-- `setup_debug_messenger` (`app.rs:234`). -/
def setup_debug_messenger (n : ℕ) : Res ℕ := alloc1 .createDebugMessenger n

/-- The `ash_window::create_surface` call inlined in `new` (`app.rs:62`). -/
def create_surface (n : ℕ) : Res ℕ := alloc1 .createSurface n

/-- `create_logical_device` (`app.rs:351`); the queue handles are retrieved,
not created, so only the device handle is modelled. -/
def create_logical_device (n : ℕ) : Res ℕ := alloc1 .createDevice n

/-- `create_buffer` (`app.rs:1163`): one buffer handle plus one
device-memory allocation, bound together. -/
def create_buffer (usage : BufferUsage) (n : ℕ) : Res (ℕ × ℕ) :=
  ⟨(n, n + 1), n + 2, [.createBuffer usage n (n + 1)]⟩

/-- `create_vertex_buffer` (`app.rs:1133`): a host-visible vertex buffer
filled from `VERTICES` by a map/copy/unmap upload. -/
def create_vertex_buffer (n : ℕ) : Res (ℕ × ℕ) := create_buffer .vertex n

/-- `create_index_buffer` (`app.rs:1103`): a host-visible index buffer
filled from `INDICES` by a map/copy/unmap upload. -/
def create_index_buffer (n : ℕ) : Res (ℕ × ℕ) := create_buffer .index n

/-- `create_swapchain` (`app.rs:387`); the format/extent choices are pure
queries and do not create handles. -/
def create_swapchain (n : ℕ) : Res ℕ := alloc1 .createSwapchain n

/-- `get_swapchain_images` (`app.rs:104`): the platform supplies one
presentable image per reported image; the images are owned by the swapchain
and never destroyed individually. -/
def get_swapchain_images (env : Env) : List ℕ :=
  List.range env.imageCount

/-- `create_image_views` (`app.rs:516`): one image view per swapchain
image. -/
def create_image_views (images : List ℕ) (n : ℕ) : Res (List ℕ) :=
  match images with
  | [] => ⟨[], n, []⟩
  | _ :: rest =>
    let r := create_image_views rest (n + 1)
    ⟨n :: r.val, r.next, .createImageView n :: r.events⟩

/-- `create_descriptor_set_layout` (`app.rs:1377`). -/
def create_descriptor_set_layout (n : ℕ) : Res ℕ :=
  alloc1 .createDescriptorSetLayout n

/-- `create_render_pass` (`app.rs:546`). -/
def create_render_pass (n : ℕ) : Res ℕ := alloc1 .createRenderPass n

/-- `create_graphics_pipeline` (`app.rs:610`): two shader modules are
created, then the pipeline layout, then the pipeline, then the shader
modules are destroyed; returns `(pipeline, layout)` as in the source. -/
def create_graphics_pipeline (n : ℕ) : Res (ℕ × ℕ) :=
  ⟨(n + 3, n + 2), n + 4,
    [.createShaderModule n, .createShaderModule (n + 1),
     .createPipelineLayout (n + 2), .createGraphicsPipeline (n + 3),
     .destroyShaderModule n, .destroyShaderModule (n + 1)]⟩

/-- `create_depth_resources` (`app.rs:1216`): depth image + memory via
`create_image`, then its view; returns `(image, memory, view)`. -/
def create_depth_resources (n : ℕ) : Res (ℕ × ℕ × ℕ) :=
  ⟨(n, n + 1, n + 2), n + 3,
    [.createImage n (n + 1), .createImageView (n + 2)]⟩

/-- `create_framebuffers` (`app.rs:739`): one framebuffer per swapchain
image view, each also attaching the shared depth view. -/
def create_framebuffers (image_views : List ℕ) (n : ℕ) : Res (List ℕ) :=
  match image_views with
  | [] => ⟨[], n, []⟩
  | _ :: rest =>
    let r := create_framebuffers rest (n + 1)
    ⟨n :: r.val, r.next, .createFramebuffer n :: r.events⟩

/-- `create_command_pool` (`app.rs:761`). -/
def create_command_pool (n : ℕ) : Res ℕ := alloc1 .createCommandPool n

/-- `create_command_buffers` (`app.rs:768`): one allocation call producing
`framebuffer_count` primary command buffers. -/
def create_command_buffers (framebuffer_count : ℕ) (n : ℕ) : Res (List ℕ) :=
  let hs := (List.range framebuffer_count).map (n + ·)
  ⟨hs, n + framebuffer_count, [.allocateCommandBuffers hs]⟩

/-- `create_sync_objects` (`app.rs:845`): two semaphores and the signaled
in-flight fence. -/
def create_sync_objects (n : ℕ) : Res (ℕ × ℕ × ℕ) :=
  ⟨(n, n + 1, n + 2), n + 3,
    [.createSemaphore n, .createSemaphore (n + 1), .createFence (n + 2)]⟩

/-- `create_uniform_buffers` (`app.rs:1351`): `num_images` independent
host-visible uniform buffers, returned as parallel buffer and memory
lists. -/
def create_uniform_buffers (num_images : ℕ) (n : ℕ) : Res (List ℕ × List ℕ) :=
  match num_images with
  | 0 => ⟨([], []), n, []⟩
  | k + 1 =>
    let r := create_uniform_buffers k (n + 2)
    ⟨(n :: r.val.1, (n + 1) :: r.val.2), r.next,
      .createBuffer .uniform n (n + 1) :: r.events⟩

/-- `create_descriptor_pool` (`app.rs:1395`): the pool plus one descriptor
set per swapchain image (`vec![layout; num_images]`). -/
def create_descriptor_pool (num_images : ℕ) (n : ℕ) : Res (ℕ × List ℕ) :=
  let sets := (List.range num_images).map (n + 1 + ·)
  ⟨(n, sets), n + 1 + num_images,
    [.createDescriptorPool n, .allocateDescriptorSets sets]⟩

/-- `create_descriptor_sets` (`app.rs:1421`): allocates one set per
swapchain image from the pool and points set `i` at uniform buffer `i`. -/
def create_descriptor_sets (uniform_buffers : List ℕ) (num_images : ℕ)
    (n : ℕ) : Res (List ℕ) :=
  let sets := (List.range num_images).map (n + ·)
  ⟨sets, n + num_images,
    .allocateDescriptorSets sets ::
      (sets.zip uniform_buffers).map (fun p => .updateDescriptorSet p.1 p.2)⟩

/-- `VulkanApp::new` (`app.rs:58`): the full startup build, with every
handle-creating call in source order; returns the resulting struct, the
final fresh counter, and the event trace. -/
def VulkanApp.new (env : Env) : VulkanAppSt × ℕ × List Event :=
  let r_inst := create_instance 0
  let r_dbg := setup_debug_messenger r_inst.next
  let r_surf := create_surface r_dbg.next
  let r_dev := create_logical_device r_surf.next
  let r_vb1 := create_vertex_buffer r_dev.next
  let r_ib1 := create_index_buffer r_vb1.next
  let r_sc := create_swapchain r_ib1.next
  let images := get_swapchain_images env
  let r_views := create_image_views images r_sc.next
  let r_dsl1 := create_descriptor_set_layout r_views.next
  let r_rp := create_render_pass r_dsl1.next
  let r_gp := create_graphics_pipeline r_rp.next
  let r_depth := create_depth_resources r_gp.next
  let r_fb := create_framebuffers r_views.val r_depth.next
  let r_cp := create_command_pool r_fb.next
  let r_vb2 := create_vertex_buffer r_cp.next
  let r_ib2 := create_index_buffer r_vb2.next
  let r_dsl2 := create_descriptor_set_layout r_ib2.next
  let r_dp := create_descriptor_pool images.length r_dsl2.next
  let r_ub := create_uniform_buffers images.length r_dp.next
  let r_cb := create_command_buffers images.length r_ub.next
  let r_sync := create_sync_objects r_cb.next
  let r_ds2 := create_descriptor_sets r_ub.val.1 images.length r_sync.next
  (⟨r_inst.val, r_dbg.val, r_surf.val, r_dev.val,
    r_sc.val, images, r_views.val,
    r_rp.val, r_gp.val.2, r_gp.val.1, r_fb.val,
    r_cp.val, r_cb.val,
    r_sync.val.1, r_sync.val.2.1, r_sync.val.2.2, false,
    r_vb2.val.1, r_vb2.val.2, r_ib2.val.1, r_ib2.val.2,
    r_ub.val.1, r_ub.val.2,
    r_dsl2.val, r_dp.val.1, r_ds2.val,
    r_depth.val.1, r_depth.val.2.1, r_depth.val.2.2⟩,
   r_ds2.next,
   r_inst.events ++ r_dbg.events ++ r_surf.events ++ r_dev.events ++
   r_vb1.events ++ r_ib1.events ++ r_sc.events ++ r_views.events ++
   r_dsl1.events ++ r_rp.events ++ r_gp.events ++ r_depth.events ++
   r_fb.events ++ r_cp.events ++ r_vb2.events ++ r_ib2.events ++
   r_dsl2.events ++ r_dp.events ++ r_ub.events ++ r_cb.events ++
   r_sync.events ++ r_ds2.events)

/-- `cleanup_swapchain` (`app.rs:862`): the destroy calls it issues, in
source order.  The uniform loop indexes the buffer and memory vectors in
lockstep, embedded as a zip (the two vectors always have equal length in
every reachable state). -/
def cleanup_swapchain (a : VulkanAppSt) : List Event :=
  (a.uniform_buffers.zip a.uniform_buffers_memory).flatMap
    (fun p => [.destroyBuffer p.1, .freeMemory p.2]) ++
  a.framebuffers.map .destroyFramebuffer ++
  [.destroyPipeline a.graphics_pipeline,
   .destroyDescriptorPool a.descriptor_pool,
   .destroyPipelineLayout a.pipeline_layout,
   .destroyRenderPass a.render_pass] ++
  a.swapchain_image_views.map .destroyImageView ++
  [.destroyImageView a.depth_image_view,
   .destroyImage a.depth_image,
   .freeMemory a.depth_image_memory,
   .destroySwapchain a.swapchain]

/-- `recreate_swapchain` (`app.rs:889`): device-idle wait, swapchain
cleanup, then the rebuild with every handle-creating call in source order
(the render pass is created twice there, the first immediately becoming
dead). -/
def recreate_swapchain (a : VulkanAppSt) (env : Env) (n : ℕ) :
    VulkanAppSt × ℕ × List Event :=
  let r_rp1 := create_render_pass n
  let r_sc := create_swapchain r_rp1.next
  let images := get_swapchain_images env
  let r_views := create_image_views images r_sc.next
  let r_rp2 := create_render_pass r_views.next
  let r_gp := create_graphics_pipeline r_rp2.next
  let r_depth := create_depth_resources r_gp.next
  let r_fb := create_framebuffers r_views.val r_depth.next
  let r_ub := create_uniform_buffers images.length r_fb.next
  let r_dp := create_descriptor_pool images.length r_ub.next
  let r_ds2 := create_descriptor_sets r_ub.val.1 images.length r_dp.next
  ({ a with
      swapchain := r_sc.val
      swapchain_images := images
      swapchain_image_views := r_views.val
      render_pass := r_rp2.val
      pipeline_layout := r_gp.val.2
      graphics_pipeline := r_gp.val.1
      framebuffers := r_fb.val
      uniform_buffers := r_ub.val.1
      uniform_buffers_memory := r_ub.val.2
      descriptor_pool := r_dp.val.1
      descriptor_sets := r_ds2.val
      depth_image := r_depth.val.1
      depth_image_memory := r_depth.val.2.1
      depth_image_view := r_depth.val.2.2 },
   r_ds2.next,
   .deviceWaitIdle :: cleanup_swapchain a ++
   r_rp1.events ++ r_sc.events ++ r_views.events ++ r_rp2.events ++
   r_gp.events ++ r_depth.events ++ r_fb.events ++ r_ub.events ++
   r_dp.events ++ r_ds2.events)

/-- `Drop::drop` for `VulkanApp` (`app.rs:1457`): device-idle wait,
`cleanup_swapchain`, then the remaining destroy calls in source order —
including a second destruction of the depth view/image/memory, the
descriptor pool, and every uniform buffer and its memory. -/
def VulkanApp.drop (a : VulkanAppSt) : List Event :=
  .deviceWaitIdle :: cleanup_swapchain a ++
  [.destroyBuffer a.index_buffer, .freeMemory a.index_buffer_memory,
   .destroyBuffer a.vertex_buffer, .freeMemory a.vertex_buffer_memory,
   .destroySemaphore a.image_available_semaphore,
   .destroySemaphore a.render_finished_semaphore,
   .destroyFence a.in_flight_fence,
   .destroyCommandPool a.command_pool,
   .destroyImageView a.depth_image_view,
   .destroyImage a.depth_image,
   .freeMemory a.depth_image_memory,
   .destroyDescriptorPool a.descriptor_pool,
   .destroyDescriptorSetLayout a.descriptor_set_layout] ++
  (a.uniform_buffers.zip a.uniform_buffers_memory).flatMap
    (fun p => [.destroyBuffer p.1, .freeMemory p.2]) ++
  [.destroyDevice a.device, .destroySurface a.surface,
   .destroyDebugMessenger a.debug_messenger,
   .destroyInstance a.instance_h]

/-- Projections of the creation trace used to state the duplicate-creation
claim: the `(buffer, memory)` pairs of every buffer creation with the given
usage, in order. -/
def bufferCreates (usage : BufferUsage) (evs : List Event) : List (ℕ × ℕ) :=
  evs.filterMap (fun e =>
    match e with
    | .createBuffer u b m => if u = usage then some (b, m) else none
    | _ => none)

/-- The handles of every descriptor-set-layout creation in a trace, in
order. -/
def layoutCreates (evs : List Event) : List ℕ :=
  evs.filterMap (fun e =>
    match e with
    | .createDescriptorSetLayout h => some h
    | _ => none)

/-- The count-equality invariant of the spec (§3/§8): image views,
framebuffers, descriptor sets, uniform buffers and their memories all number
exactly the reported swapchain images. -/
def CountInvariant (a : VulkanAppSt) : Prop :=
  a.swapchain_image_views.length = a.swapchain_images.length ∧
  a.framebuffers.length = a.swapchain_images.length ∧
  a.descriptor_sets.length = a.swapchain_images.length ∧
  a.uniform_buffers.length = a.swapchain_images.length ∧
  a.uniform_buffers_memory.length = a.swapchain_images.length

/-! ## Per-tick protocol of `draw_frame` (`app.rs:970`)

`draw_frame` is embedded as a function of the current resize flag and the
results the platform returns from `acquire_next_image` and `queue_present`;
it yields the ordered list of steps the tick performs and its outcome.  A
Rust `panic!` (process abort) is a distinguished outcome. -/

inductive AcquireResult where
  | ok (imageIndex : ℕ) (isSuboptimal : Bool)
  | errOutOfDate
  | errOther
deriving DecidableEq

inductive PresentResult where
  | ok (isSuboptimal : Bool)
  | errOutOfDate
  | errSuboptimal
  | errOther
deriving DecidableEq

inductive Step where
  | fenceWait
  | acquire
  | updateUniform (i : ℕ)
  | fenceReset
  | cmdReset (i : ℕ)
  | cmdRecord (i : ℕ)
  | submit (i : ℕ)
  | present (i : ℕ)
  | recreateSwapchain
deriving DecidableEq

inductive DrawOutcome where
  /-- The tick ran to the end of `draw_frame`; the payload is the value of
  `framebuffer_resized` after the tick. -/
  | completed (resizedAfter : Bool)
  /-- The early `return` after an out-of-date acquire: no submission, no
  present. -/
  | abortedEarly
  /-- A `panic!` on an unexpected acquire or present error code. -/
  | panicked
deriving DecidableEq

/-- The eight steps of a tick that reaches submission, for acquired image
index `i`: fence wait, acquire, uniform update, fence reset, command-buffer
reset, command-buffer re-record, graphics-queue submit, present. -/
def coreSteps (i : ℕ) : List Step :=
  [.fenceWait, .acquire, .updateUniform i, .fenceReset,
   .cmdReset i, .cmdRecord i, .submit i, .present i]

/-- `draw_frame` (`app.rs:970`), as the ordered step list of one tick plus
its outcome, given the prior `framebuffer_resized` flag and the platform's
acquire and present results. -/
def draw_frame (framebufferResized : Bool) (acq : AcquireResult)
    (pres : PresentResult) : List Step × DrawOutcome :=
  match acq with
  | .errOutOfDate =>
    ([.fenceWait, .acquire, .recreateSwapchain], .abortedEarly)
  | .errOther => ([.fenceWait, .acquire], .panicked)
  | .ok i isSuboptimal =>
    let resized := framebufferResized || isSuboptimal
    match pres with
    | .errOther => (coreSteps i, .panicked)
    | .ok s =>
      if resized || s then (coreSteps i ++ [.recreateSwapchain], .completed false)
      else (coreSteps i, .completed resized)
    | .errOutOfDate => (coreSteps i ++ [.recreateSwapchain], .completed false)
    | .errSuboptimal => (coreSteps i ++ [.recreateSwapchain], .completed false)

/-! ## Physical-device selection (`app.rs:260`)

A physical device is described by what the embedded code queries of it: its
queue families (graphics capability and per-family surface support), its
available device extensions (by numeric code), and the surface formats and
present modes it reports.  The required-extension list holds the single
swapchain extension. -/

def KHR_SWAPCHAIN_EXT : ℕ := 0

structure QueueFamilyProps where
  graphics : Bool
  presentSupport : Bool
deriving DecidableEq

structure PhysicalDevice where
  queueFamilies : List QueueFamilyProps
  availableExtensions : List ℕ
  formats : List SurfaceFormatKHR
  presentModes : List ℕ
deriving DecidableEq

/-- Modelled from the spec: `queue.rs` (module `queue`, declared in
`mod.rs`) is not under `src/`.  Per §4.1 the queue-family record holds the
optional graphics and present family indices. -/
structure QueueFamilyIndices where
  graphics_family : Option ℕ
  present_family : Option ℕ
deriving DecidableEq

/-- Modelled from the spec: `QueueFamilyIndices::new` from the missing
`queue.rs`; discovery starts with neither family recorded. -/
def QueueFamilyIndices.new : QueueFamilyIndices := ⟨none, none⟩

/-- Modelled from the spec: `QueueFamilyIndices::is_complete` from the
missing `queue.rs`; per §4.1 both a graphics-capable and a
presentation-capable family must have been found. -/
def QueueFamilyIndices.is_complete (i : QueueFamilyIndices) : Bool :=
  i.graphics_family.isSome && i.present_family.isSome

/-- The loop body of `find_queue_families` (`app.rs:319`): scan the
families in order, recording the latest graphics-capable and
present-capable indices, stopping early once both are found. -/
def findQueueFamiliesLoop (families : List QueueFamilyProps) (i : ℕ)
    (acc : QueueFamilyIndices) : QueueFamilyIndices :=
  match families with
  | [] => acc
  | f :: rest =>
    let acc1 := if f.graphics then { acc with graphics_family := some i } else acc
    let acc2 :=
      if f.presentSupport then { acc1 with present_family := some i } else acc1
    if acc2.is_complete then acc2 else findQueueFamiliesLoop rest (i + 1) acc2

/-- `find_queue_families` (`app.rs:319`). -/
def find_queue_families (d : PhysicalDevice) : QueueFamilyIndices :=
  findQueueFamiliesLoop d.queueFamilies 0 QueueFamilyIndices.new

/-- `check_device_extension_support` (`app.rs:294`): every required
extension (just the swapchain extension) must be among the device's
available extensions. -/
def check_device_extension_support (d : PhysicalDevice) : Bool :=
  [KHR_SWAPCHAIN_EXT].all (fun required => d.availableExtensions.contains required)

/-- `is_device_suitable` (`app.rs:275`): complete queue families, supported
extensions, and — only queried when the extensions are supported — a
non-empty format list and a non-empty present-mode list. -/
def is_device_suitable (d : PhysicalDevice) : Bool :=
  let indices := find_queue_families d
  let extensions_supported := check_device_extension_support d
  let swapchain_adequate :=
    if extensions_supported then !d.formats.isEmpty && !d.presentModes.isEmpty
    else false
  indices.is_complete && extensions_supported && swapchain_adequate

/-- `pick_physical_device` (`app.rs:260`): the first enumerated suitable
device together with its queue-family indices; the
`expect("Failed to find a suitable GPU!")` panic is embedded as `none`. -/
def pick_physical_device (devices : List PhysicalDevice) :
    Option (PhysicalDevice × QueueFamilyIndices) :=
  (devices.find? is_device_suitable).map (fun d => (d, find_queue_families d))

/-- The spec's hard requirements for a device (§4.1), stated independently
of the selection code: a graphics-capable family, a presentation-capable
family, swapchain-extension support, and at least one surface format and
one present mode. -/
def MeetsHardRequirements (d : PhysicalDevice) : Prop :=
  (∃ f ∈ d.queueFamilies, f.graphics = true) ∧
  (∃ f ∈ d.queueFamilies, f.presentSupport = true) ∧
  KHR_SWAPCHAIN_EXT ∈ d.availableExtensions ∧
  d.formats ≠ [] ∧
  d.presentModes ≠ []

instance : DecidablePred MeetsHardRequirements := fun d => by
  unfold MeetsHardRequirements
  infer_instance

/-! ## The uniform model matrix (`update_uniform_buffer`, `app.rs:1063`)

The `f32` arithmetic of `cgmath` is idealised over the exact reals.  The
source computes `model = Matrix4::from_angle_z(Deg(time * 90.0))` and a
fixed `look_at_rh` view whose up vector is `(0, 0, 1)`; `from_angle_z` and
the degree-to-radian conversion are embedded from `cgmath`, and the spec's
"rotation of 90°·T about the vertical axis" is embedded independently as
the axis-angle (Rodrigues) rotation about that up axis. -/

noncomputable section

/-- `cgmath` conversion of `Deg(d)` to radians. -/
def degToRad (d : ℝ) : ℝ := d * Real.pi / 180

/-- `cgmath`'s `Matrix4::from_angle_z θ` (stored column-major in the
source; written here row by row). -/
def from_angle_z (θ : ℝ) : Matrix (Fin 4) (Fin 4) ℝ :=
  !![Real.cos θ, -Real.sin θ, 0, 0;
     Real.sin θ, Real.cos θ, 0, 0;
     0, 0, 1, 0;
     0, 0, 0, 1]

/-- The model matrix computed by `update_uniform_buffer` at elapsed time
`time`: `Matrix4::from_angle_z(Deg(time * 90.0))` (`app.rs:1066`). -/
def update_uniform_model (time : ℝ) : Matrix (Fin 4) (Fin 4) ℝ :=
  from_angle_z (degToRad (time * 90))

/-- The up vector `Vector3::new(0.0, 0.0, 1.0)` of the fixed `look_at_rh`
view (`app.rs:1070`) — the vertical axis. -/
def look_at_up : Fin 3 → ℝ := ![0, 0, 1]

/-- The cross-product matrix of a 3-vector, for the axis-angle formula. -/
def crossMat (u : Fin 3 → ℝ) : Matrix (Fin 3) (Fin 3) ℝ :=
  !![0, -u 2, u 1;
     u 2, 0, -u 0;
     -u 1, u 0, 0]

/-- The spec-side notion of "a rotation of angle `θ` about the axis `u`":
the Rodrigues axis-angle rotation
`cos θ · I + sin θ · [u]ₓ + (1 - cos θ) · uuᵀ`. -/
def axisRotation (u : Fin 3 → ℝ) (θ : ℝ) : Matrix (Fin 3) (Fin 3) ℝ :=
  Matrix.of fun i j =>
    Real.cos θ * (if i = j then 1 else 0) + Real.sin θ * crossMat u i j +
      (1 - Real.cos θ) * (u i * u j)

/-- Homogeneous 4×4 embedding of a 3×3 linear map, as used for model
matrices. -/
def toHomogeneous (R : Matrix (Fin 3) (Fin 3) ℝ) : Matrix (Fin 4) (Fin 4) ℝ :=
  !![R 0 0, R 0 1, R 0 2, 0;
     R 1 0, R 1 1, R 1 2, 0;
     R 2 0, R 2 1, R 2 2, 0;
     0, 0, 0, 1]

end

end VulkanCube

namespace VulkanCube

/-! ### Theorems for the selection helpers -/

/-- Helper: `find?` returns `none` iff no element satisfies the predicate. -/
theorem find_eq_none_of_not {α : Type} (p : α → Bool) (l : List α)
    (h : ∀ a ∈ l, ¬ p a = true) : l.find? p = none :=
  List.find?_eq_none.mpr h

/-- C5: for a non-empty format list, `choose_swap_surface_format` returns a
preferred entry (format `B8G8R8A8_SRGB`, color space `SRGB_NONLINEAR`) from
the list whenever one is present, and the first entry of the list
otherwise. -/
theorem choose_swap_surface_format_spec (l : List SurfaceFormatKHR)
    (_hne : l ≠ []) :
    ((∃ f ∈ l, IsPreferredFormat f) →
      ∃ f, choose_swap_surface_format l = some f ∧ f ∈ l ∧ IsPreferredFormat f) ∧
    ((∀ f ∈ l, ¬ IsPreferredFormat f) →
      choose_swap_surface_format l = l[0]?) := by
  constructor
  · rintro ⟨f, hf, hpref⟩
    have hb : (f.format == B8G8R8A8_SRGB && f.color_space == SRGB_NONLINEAR) = true := by
      simp only [Bool.and_eq_true, beq_iff_eq]
      exact ⟨hpref.1, hpref.2⟩
    have hsome : (l.find? (fun g =>
        g.format == B8G8R8A8_SRGB && g.color_space == SRGB_NONLINEAR)).isSome :=
      List.find?_isSome.mpr ⟨f, hf, hb⟩
    rcases Option.isSome_iff_exists.mp hsome with ⟨g, hg⟩
    refine ⟨g, ?_, List.mem_of_find?_eq_some hg, ?_⟩
    · simp [choose_swap_surface_format, hg]
    · have := List.find?_some hg
      simp only [Bool.and_eq_true, beq_iff_eq] at this
      exact ⟨this.1, this.2⟩
  · intro hall
    have hnone : l.find? (fun g =>
        g.format == B8G8R8A8_SRGB && g.color_space == SRGB_NONLINEAR) = none := by
      refine find_eq_none_of_not _ _ (fun a ha hcontra => ?_)
      simp only [Bool.and_eq_true, beq_iff_eq] at hcontra
      exact hall a ha ⟨hcontra.1, hcontra.2⟩
    simp [choose_swap_surface_format, hnone]

/-- Witness for C5 at concrete inputs: a list containing the preferred format
and a list lacking it. -/
theorem choose_swap_surface_format_spec_witness :
    (∃ f, choose_swap_surface_format
        [⟨44, 0⟩, ⟨50, 0⟩] = some f ∧ f ∈ [(⟨44, 0⟩ : SurfaceFormatKHR), ⟨50, 0⟩] ∧
        IsPreferredFormat f) ∧
    choose_swap_surface_format [⟨44, 0⟩, ⟨37, 1⟩] =
      ([(⟨44, 0⟩ : SurfaceFormatKHR), ⟨37, 1⟩])[0]? := by
  constructor
  · exact (choose_swap_surface_format_spec [⟨44, 0⟩, ⟨50, 0⟩] (by decide)).1
      ⟨⟨50, 0⟩, by decide, by constructor <;> rfl⟩
  · exact (choose_swap_surface_format_spec [⟨44, 0⟩, ⟨37, 1⟩] (by decide)).2
      (by decide)

/-- C6: `choose_swap_present_mode` returns `MAILBOX` whenever it is in the
list and `FIFO` otherwise. -/
theorem choose_swap_present_mode_spec (l : List ℕ) :
    (MAILBOX ∈ l → choose_swap_present_mode l = MAILBOX) ∧
    (MAILBOX ∉ l → choose_swap_present_mode l = FIFO) := by
  constructor
  · intro hmem
    have hex : (l.find? (fun mode => mode == MAILBOX)).isSome :=
      List.find?_isSome.mpr ⟨MAILBOX, hmem, by simp⟩
    rcases Option.isSome_iff_exists.mp hex with ⟨m, hm⟩
    have := List.find?_some hm
    simp only [beq_iff_eq] at this
    simp [choose_swap_present_mode, hm, this]
  · intro hnot
    have hnone : l.find? (fun mode => mode == MAILBOX) = none := by
      refine find_eq_none_of_not _ _ (fun a ha hcontra => ?_)
      simp only [beq_iff_eq] at hcontra
      exact hnot (hcontra ▸ ha)
    simp [choose_swap_present_mode, hnone]

/-- Witness for C6 at concrete inputs: one list containing `MAILBOX`, one
without it. -/
theorem choose_swap_present_mode_spec_witness :
    choose_swap_present_mode [2, 1, 3] = MAILBOX ∧
    choose_swap_present_mode [2, 3] = FIFO :=
  ⟨(choose_swap_present_mode_spec [2, 1, 3]).1 (by decide),
   (choose_swap_present_mode_spec [2, 3]).2 (by decide)⟩

/-- C10: `INDICES` has 36 entries, `VERTICES` has 8 entries, and every index
is strictly below the vertex count, so the single indexed draw over the whole
index list stays inside the vertex buffer. -/
theorem indices_in_bounds :
    INDICES.length = 36 ∧ VERTICES.length = 8 ∧
    (INDICES.all (fun i => i < VERTICES.length)) = true := by
  refine ⟨rfl, rfl, ?_⟩
  decide

/-! ### Length and trace lemmas for the handle-level embedding -/

theorem create_image_views_val_length (l : List ℕ) (n : ℕ) :
    (create_image_views l n).val.length = l.length := by
  induction l generalizing n with
  | nil => rfl
  | cons x rest ih => simp [create_image_views, ih]

theorem create_image_views_next (l : List ℕ) (n : ℕ) :
    (create_image_views l n).next = n + l.length := by
  induction l generalizing n with
  | nil => rfl
  | cons x rest ih => simp [create_image_views, ih]; omega

theorem create_framebuffers_val_length (l : List ℕ) (n : ℕ) :
    (create_framebuffers l n).val.length = l.length := by
  induction l generalizing n with
  | nil => rfl
  | cons x rest ih => simp [create_framebuffers, ih]

theorem create_framebuffers_next (l : List ℕ) (n : ℕ) :
    (create_framebuffers l n).next = n + l.length := by
  induction l generalizing n with
  | nil => rfl
  | cons x rest ih => simp [create_framebuffers, ih]; omega

theorem create_uniform_buffers_val_length (k n : ℕ) :
    (create_uniform_buffers k n).val.1.length = k ∧
    (create_uniform_buffers k n).val.2.length = k := by
  induction k generalizing n with
  | zero => exact ⟨rfl, rfl⟩
  | succ k ih => simp [create_uniform_buffers, (ih (n + 2)).1, (ih (n + 2)).2]

theorem create_uniform_buffers_next (k n : ℕ) :
    (create_uniform_buffers k n).next = n + 2 * k := by
  induction k generalizing n with
  | zero => rfl
  | succ k ih => simp [create_uniform_buffers, ih]; omega

theorem create_descriptor_sets_val_length (ubs : List ℕ) (k n : ℕ) :
    (create_descriptor_sets ubs k n).val.length = k := by
  simp [create_descriptor_sets]

theorem bufferCreates_append (u : BufferUsage) (l1 l2 : List Event) :
    bufferCreates u (l1 ++ l2) = bufferCreates u l1 ++ bufferCreates u l2 := by
  simp [bufferCreates]

theorem layoutCreates_append (l1 l2 : List Event) :
    layoutCreates (l1 ++ l2) = layoutCreates l1 ++ layoutCreates l2 := by
  simp [layoutCreates]

theorem bufferCreates_create_image_views (u : BufferUsage) (l : List ℕ)
    (n : ℕ) : bufferCreates u (create_image_views l n).events = [] := by
  induction l generalizing n with
  | nil => rfl
  | cons x rest ih => simp [create_image_views, bufferCreates] at ih ⊢; exact ih _

theorem bufferCreates_create_framebuffers (u : BufferUsage) (l : List ℕ)
    (n : ℕ) : bufferCreates u (create_framebuffers l n).events = [] := by
  induction l generalizing n with
  | nil => rfl
  | cons x rest ih => simp [create_framebuffers, bufferCreates] at ih ⊢; exact ih _

theorem bufferCreates_create_uniform_buffers_vertex (k n : ℕ) :
    bufferCreates .vertex (create_uniform_buffers k n).events = [] := by
  induction k generalizing n with
  | zero => rfl
  | succ k ih => simp [create_uniform_buffers, bufferCreates] at ih ⊢; exact ih _

theorem bufferCreates_create_uniform_buffers_index (k n : ℕ) :
    bufferCreates .index (create_uniform_buffers k n).events = [] := by
  induction k generalizing n with
  | zero => rfl
  | succ k ih => simp [create_uniform_buffers, bufferCreates] at ih ⊢; exact ih _

theorem layoutCreates_create_image_views (l : List ℕ) (n : ℕ) :
    layoutCreates (create_image_views l n).events = [] := by
  induction l generalizing n with
  | nil => rfl
  | cons x rest ih => simp [create_image_views, layoutCreates] at ih ⊢; exact ih _

theorem layoutCreates_create_framebuffers (l : List ℕ) (n : ℕ) :
    layoutCreates (create_framebuffers l n).events = [] := by
  induction l generalizing n with
  | nil => rfl
  | cons x rest ih => simp [create_framebuffers, layoutCreates] at ih ⊢; exact ih _

theorem layoutCreates_create_uniform_buffers (k n : ℕ) :
    layoutCreates (create_uniform_buffers k n).events = [] := by
  induction k generalizing n with
  | zero => rfl
  | succ k ih => simp [create_uniform_buffers, layoutCreates] at ih ⊢; exact ih _

/-- C1: after every successful startup build and after every swapchain
recreation, the image-view, framebuffer, descriptor-set, uniform-buffer and
uniform-memory counts all equal the reported swapchain image count, which is
the image count of the environment built against. -/
theorem swapchain_count_invariant (env : Env) (a : VulkanAppSt) (n : ℕ) :
    (CountInvariant (VulkanApp.new env).1 ∧
      (VulkanApp.new env).1.swapchain_images.length = env.imageCount) ∧
    (CountInvariant (recreate_swapchain a env n).1 ∧
      (recreate_swapchain a env n).1.swapchain_images.length = env.imageCount) := by
  constructor
  · constructor
    · refine ⟨?_, ?_, ?_, ?_, ?_⟩ <;>
        simp [VulkanApp.new, CountInvariant, get_swapchain_images,
          create_image_views_val_length, create_framebuffers_val_length,
          (create_uniform_buffers_val_length _ _).1,
          (create_uniform_buffers_val_length _ _).2,
          create_descriptor_sets_val_length]
    · simp [VulkanApp.new, get_swapchain_images]
  · constructor
    · refine ⟨?_, ?_, ?_, ?_, ?_⟩ <;>
        simp [recreate_swapchain, CountInvariant, get_swapchain_images,
          create_image_views_val_length, create_framebuffers_val_length,
          (create_uniform_buffers_val_length _ _).1,
          (create_uniform_buffers_val_length _ _).2,
          create_descriptor_sets_val_length]
    · simp [recreate_swapchain, get_swapchain_images]

/-- C4 (refutation of at-most-once destruction): in the teardown of an app
built against a 2-image swapchain, `Drop::drop` destroys the depth image
view, depth image, depth memory and descriptor pool twice, and destroys
every uniform buffer and frees every uniform-buffer memory twice — once in
`cleanup_swapchain` and once again afterwards. -/
theorem drop_double_destroy :
    ((VulkanApp.drop (VulkanApp.new ⟨2⟩).1).count
        (.destroyImageView (VulkanApp.new ⟨2⟩).1.depth_image_view) = 2) ∧
    ((VulkanApp.drop (VulkanApp.new ⟨2⟩).1).count
        (.destroyImage (VulkanApp.new ⟨2⟩).1.depth_image) = 2) ∧
    ((VulkanApp.drop (VulkanApp.new ⟨2⟩).1).count
        (.freeMemory (VulkanApp.new ⟨2⟩).1.depth_image_memory) = 2) ∧
    ((VulkanApp.drop (VulkanApp.new ⟨2⟩).1).count
        (.destroyDescriptorPool (VulkanApp.new ⟨2⟩).1.descriptor_pool) = 2) ∧
    (((VulkanApp.new ⟨2⟩).1.uniform_buffers.all (fun b =>
        (VulkanApp.drop (VulkanApp.new ⟨2⟩).1).count (.destroyBuffer b) == 2))
       = true) ∧
    (((VulkanApp.new ⟨2⟩).1.uniform_buffers_memory.all (fun m =>
        (VulkanApp.drop (VulkanApp.new ⟨2⟩).1).count (.freeMemory m) == 2))
       = true) := by
  decide

/-! ### Closed forms for the startup trace -/

theorem new_bufferCreates_vertex (env : Env) :
    bufferCreates .vertex (VulkanApp.new env).2.2 =
      [(4, 5), (19 + 2 * env.imageCount, 20 + 2 * env.imageCount)] := by
  simp only [VulkanApp.new, create_instance, setup_debug_messenger,
    create_surface, create_logical_device, create_vertex_buffer,
    create_index_buffer, create_buffer, create_swapchain,
    get_swapchain_images, create_descriptor_set_layout, create_render_pass,
    create_graphics_pipeline, create_depth_resources, create_command_pool,
    create_command_buffers, create_sync_objects, create_descriptor_pool,
    create_descriptor_sets, alloc1, create_image_views_next,
    create_framebuffers_next, create_uniform_buffers_next,
    create_image_views_val_length, List.length_range, bufferCreates_append,
    bufferCreates_create_image_views, bufferCreates_create_framebuffers,
    bufferCreates_create_uniform_buffers_vertex, List.append_nil,
    List.nil_append]
  simp [bufferCreates]
  omega

theorem new_bufferCreates_index (env : Env) :
    bufferCreates .index (VulkanApp.new env).2.2 =
      [(6, 7), (21 + 2 * env.imageCount, 22 + 2 * env.imageCount)] := by
  simp only [VulkanApp.new, create_instance, setup_debug_messenger,
    create_surface, create_logical_device, create_vertex_buffer,
    create_index_buffer, create_buffer, create_swapchain,
    get_swapchain_images, create_descriptor_set_layout, create_render_pass,
    create_graphics_pipeline, create_depth_resources, create_command_pool,
    create_command_buffers, create_sync_objects, create_descriptor_pool,
    create_descriptor_sets, alloc1, create_image_views_next,
    create_framebuffers_next, create_uniform_buffers_next,
    create_image_views_val_length, List.length_range, bufferCreates_append,
    bufferCreates_create_image_views, bufferCreates_create_framebuffers,
    bufferCreates_create_uniform_buffers_index, List.append_nil,
    List.nil_append]
  simp [bufferCreates]
  omega

theorem new_layoutCreates (env : Env) :
    layoutCreates (VulkanApp.new env).2.2 =
      [9 + env.imageCount, 23 + 2 * env.imageCount] := by
  simp only [VulkanApp.new, create_instance, setup_debug_messenger,
    create_surface, create_logical_device, create_vertex_buffer,
    create_index_buffer, create_buffer, create_swapchain,
    get_swapchain_images, create_descriptor_set_layout, create_render_pass,
    create_graphics_pipeline, create_depth_resources, create_command_pool,
    create_command_buffers, create_sync_objects, create_descriptor_pool,
    create_descriptor_sets, alloc1, create_image_views_next,
    create_framebuffers_next, create_uniform_buffers_next,
    create_image_views_val_length, List.length_range, layoutCreates_append,
    layoutCreates_create_image_views, layoutCreates_create_framebuffers,
    layoutCreates_create_uniform_buffers, List.append_nil, List.nil_append]
  simp [layoutCreates]
  omega

theorem new_overwritten_handles (env : Env) :
    (VulkanApp.new env).1.vertex_buffer = 19 + 2 * env.imageCount ∧
    (VulkanApp.new env).1.vertex_buffer_memory = 20 + 2 * env.imageCount ∧
    (VulkanApp.new env).1.index_buffer = 21 + 2 * env.imageCount ∧
    (VulkanApp.new env).1.index_buffer_memory = 22 + 2 * env.imageCount ∧
    (VulkanApp.new env).1.descriptor_set_layout = 23 + 2 * env.imageCount := by
  refine ⟨?_, ?_, ?_, ?_, ?_⟩ <;>
    (simp only [VulkanApp.new, create_instance, setup_debug_messenger,
      create_surface, create_logical_device, create_vertex_buffer,
      create_index_buffer, create_buffer, create_swapchain,
      get_swapchain_images, create_descriptor_set_layout, create_render_pass,
      create_graphics_pipeline, create_depth_resources, create_command_pool,
      alloc1, create_image_views_next, create_framebuffers_next,
      create_image_views_val_length, List.length_range];
     omega)

/-- C9: during `VulkanApp::new` the vertex buffer, the index buffer and the
descriptor-set layout are each created exactly twice, and the struct keeps
the handles of the second creation, which differ from those of the first. -/
theorem startup_duplicate_creations (env : Env) :
    ∃ p1 p2 : ℕ × ℕ, ∃ q1 q2 : ℕ × ℕ, ∃ l1 l2 : ℕ,
      bufferCreates .vertex (VulkanApp.new env).2.2 = [p1, p2] ∧
      (VulkanApp.new env).1.vertex_buffer = p2.1 ∧
      (VulkanApp.new env).1.vertex_buffer_memory = p2.2 ∧
      p1.1 ≠ p2.1 ∧ p1.2 ≠ p2.2 ∧
      bufferCreates .index (VulkanApp.new env).2.2 = [q1, q2] ∧
      (VulkanApp.new env).1.index_buffer = q2.1 ∧
      (VulkanApp.new env).1.index_buffer_memory = q2.2 ∧
      q1.1 ≠ q2.1 ∧ q1.2 ≠ q2.2 ∧
      layoutCreates (VulkanApp.new env).2.2 = [l1, l2] ∧
      (VulkanApp.new env).1.descriptor_set_layout = l2 ∧
      l1 ≠ l2 := by
  obtain ⟨h1, h2, h3, h4, h5⟩ := new_overwritten_handles env
  refine ⟨(4, 5), (19 + 2 * env.imageCount, 20 + 2 * env.imageCount),
    (6, 7), (21 + 2 * env.imageCount, 22 + 2 * env.imageCount),
    9 + env.imageCount, 23 + 2 * env.imageCount,
    new_bufferCreates_vertex env, h1, h2, by omega, by omega,
    new_bufferCreates_index env, h3, h4, by omega, by omega,
    new_layoutCreates env, h5, by omega⟩

/-! ### Theorems about the per-tick protocol -/

/-- C2: every invocation of `draw_frame` that reaches submission first waits
on the in-flight fence, then acquires, updates the uniform slot of the
acquired index, resets the fence, resets and re-records the command buffer
of the acquired index, submits and presents, in exactly that order — in
particular the fence wait precedes the command-buffer reset and re-record —
followed at most by a swapchain recreation. -/
theorem draw_frame_step_order (r : Bool) (acq : AcquireResult)
    (p : PresentResult) (h : ∃ i, Step.submit i ∈ (draw_frame r acq p).1) :
    ∃ i s t, acq = .ok i s ∧
      (draw_frame r acq p).1 = coreSteps i ++ t ∧
      (t = [] ∨ t = [.recreateSwapchain]) := by
  cases acq with
  | errOutOfDate =>
    exfalso
    obtain ⟨i, hi⟩ := h
    simp [draw_frame] at hi
  | errOther =>
    exfalso
    obtain ⟨i, hi⟩ := h
    simp [draw_frame] at hi
  | ok i s =>
    refine ⟨i, s, ?_⟩
    cases p with
    | errOther => exact ⟨[], rfl, by simp [draw_frame], Or.inl rfl⟩
    | errOutOfDate =>
      exact ⟨[.recreateSwapchain], rfl, by simp [draw_frame], Or.inr rfl⟩
    | errSuboptimal =>
      exact ⟨[.recreateSwapchain], rfl, by simp [draw_frame], Or.inr rfl⟩
    | ok s' =>
      rcases Bool.eq_false_or_eq_true ((r || s) || s') with hc | hc
      · exact ⟨[.recreateSwapchain], rfl, by simp [draw_frame, hc], Or.inr rfl⟩
      · exact ⟨[], rfl, by simp [draw_frame, hc], Or.inl rfl⟩

/-- Witness for C2 at a concrete tick that reaches submission. -/
theorem draw_frame_step_order_witness :
    ∃ i s t, (AcquireResult.ok 0 false) = .ok i s ∧
      (draw_frame false (.ok 0 false) (.ok false)).1 = coreSteps i ++ t ∧
      (t = [] ∨ t = [.recreateSwapchain]) :=
  draw_frame_step_order false (.ok 0 false) (.ok false) ⟨0, by decide⟩

/-- C3: only surface staleness is recoverable in `draw_frame`.  An
out-of-date acquire rebuilds the swapchain and aborts the tick with no
submission and no present; a suboptimal acquire proceeds but rebuilds at the
end of the tick; a stale present result (out-of-date or suboptimal, as error
or as flag), or a pending resize flag, rebuilds before the next tick; a
clean tick with no flags does not rebuild; and any other acquire or present
error panics (aborts the process). -/
theorem draw_frame_error_handling (r : Bool) (i : ℕ) (s : Bool)
    (p : PresentResult) :
    (draw_frame r .errOutOfDate p =
      ([.fenceWait, .acquire, .recreateSwapchain], .abortedEarly)) ∧
    (∀ j, Step.submit j ∉ (draw_frame r .errOutOfDate p).1 ∧
      Step.present j ∉ (draw_frame r .errOutOfDate p).1) ∧
    (p ≠ .errOther →
      (draw_frame r (.ok i true) p).1 = coreSteps i ++ [.recreateSwapchain]) ∧
    (p ≠ .errOther →
      (p = .errOutOfDate ∨ p = .errSuboptimal ∨ p = .ok true ∨ r = true) →
      (draw_frame r (.ok i s) p).1 = coreSteps i ++ [.recreateSwapchain]) ∧
    ((draw_frame false (.ok i false) (.ok false)) = (coreSteps i, .completed false)) ∧
    ((draw_frame r .errOther p).2 = .panicked) ∧
    ((draw_frame r (.ok i s) .errOther).2 = .panicked) := by
  refine ⟨rfl, ?_, ?_, ?_, by simp [draw_frame], rfl, rfl⟩
  · intro j
    constructor <;> simp [draw_frame]
  · intro hp
    cases p with
    | errOther => exact absurd rfl hp
    | errOutOfDate => simp [draw_frame]
    | errSuboptimal => simp [draw_frame]
    | ok s' => simp [draw_frame]
  · intro hp hstale
    cases p with
    | errOther => exact absurd rfl hp
    | errOutOfDate => simp [draw_frame]
    | errSuboptimal => simp [draw_frame]
    | ok s' =>
      rcases hstale with h | h | h | h
      · exact absurd h (by simp)
      · exact absurd h (by simp)
      · rw [show s' = true from by injection h]
        simp [draw_frame]
      · subst h
        simp [draw_frame]

/-- Witness for C3 at concrete inputs: an out-of-date acquire with its tick
aborted, and a suboptimal acquire with an end-of-tick rebuild. -/
theorem draw_frame_error_handling_witness :
    (draw_frame false .errOutOfDate (.ok false) =
      ([.fenceWait, .acquire, .recreateSwapchain], .abortedEarly)) ∧
    (draw_frame false (.ok 1 true) (.ok false)).1 =
      coreSteps 1 ++ [.recreateSwapchain] :=
  ⟨(draw_frame_error_handling false 1 false (.ok false)).1,
   (draw_frame_error_handling false 1 false (.ok false)).2.2.1 (by decide)⟩

/-! ### Theorems about physical-device selection -/

theorem findQueueFamiliesLoop_graphics (l : List QueueFamilyProps) (i : ℕ)
    (acc : QueueFamilyIndices) :
    (findQueueFamiliesLoop l i acc).graphics_family.isSome =
      (acc.graphics_family.isSome || l.any (fun f => f.graphics)) := by
  induction l generalizing i acc with
  | nil => simp [findQueueFamiliesLoop]
  | cons f rest ih =>
    simp only [findQueueFamiliesLoop, List.any_cons]
    by_cases hg : f.graphics = true <;> by_cases hp : f.presentSupport = true <;>
      by_cases hag : acc.graphics_family.isSome = true <;>
      by_cases hap : acc.present_family.isSome = true <;>
      simp [hg, hp, hag, hap, QueueFamilyIndices.is_complete, ih]

theorem findQueueFamiliesLoop_present (l : List QueueFamilyProps) (i : ℕ)
    (acc : QueueFamilyIndices) :
    (findQueueFamiliesLoop l i acc).present_family.isSome =
      (acc.present_family.isSome || l.any (fun f => f.presentSupport)) := by
  induction l generalizing i acc with
  | nil => simp [findQueueFamiliesLoop]
  | cons f rest ih =>
    simp only [findQueueFamiliesLoop, List.any_cons]
    by_cases hg : f.graphics = true <;> by_cases hp : f.presentSupport = true <;>
      by_cases hag : acc.graphics_family.isSome = true <;>
      by_cases hap : acc.present_family.isSome = true <;>
      simp [hg, hp, hag, hap, QueueFamilyIndices.is_complete, ih]

theorem find_queue_families_complete (d : PhysicalDevice) :
    (find_queue_families d).is_complete = true ↔
      ((∃ f ∈ d.queueFamilies, f.graphics = true) ∧
       (∃ f ∈ d.queueFamilies, f.presentSupport = true)) := by
  unfold find_queue_families QueueFamilyIndices.is_complete
  rw [findQueueFamiliesLoop_graphics, findQueueFamiliesLoop_present]
  simp [QueueFamilyIndices.new, List.any_eq_true]

theorem is_device_suitable_iff (d : PhysicalDevice) :
    is_device_suitable d = true ↔ MeetsHardRequirements d := by
  unfold is_device_suitable MeetsHardRequirements
  by_cases hext : check_device_extension_support d = true
  · have hmem : KHR_SWAPCHAIN_EXT ∈ d.availableExtensions := by
      simpa [check_device_extension_support] using hext
    simp [hext, hmem, find_queue_families_complete, List.isEmpty_iff,
      and_assoc]
  · have hmem : KHR_SWAPCHAIN_EXT ∉ d.availableExtensions := by
      simpa [check_device_extension_support] using hext
    simp [hext, hmem]

theorem find_suitable_first (devices : List PhysicalDevice)
    (d : PhysicalDevice) (h : devices.find? is_device_suitable = some d) :
    d ∈ devices ∧ is_device_suitable d = true ∧
      ∃ l1 l2, devices = l1 ++ d :: l2 ∧
        ∀ e ∈ l1, is_device_suitable e = false := by
  induction devices with
  | nil => simp at h
  | cons x rest ih =>
    by_cases hx : is_device_suitable x = true
    · rw [List.find?_cons_of_pos _ hx] at h
      obtain rfl : x = d := by injection h
      exact ⟨List.mem_cons_self x rest, hx, [], rest, rfl, by simp⟩
    · rw [List.find?_cons_of_neg _ hx] at h
      obtain ⟨hmem, hsuit, l1, l2, heq, hall⟩ := ih h
      refine ⟨List.mem_cons_of_mem x hmem, hsuit, x :: l1, l2, by simp [heq], ?_⟩
      intro e he
      rcases List.mem_cons.mp he with rfl | he'
      · exact Bool.not_eq_true _ ▸ Bool.eq_false_iff.mpr hx
      · exact hall e he'

/-- C8: `pick_physical_device` returns the first enumerated device meeting
all hard requirements (graphics family, present family, swapchain
extension, a surface format and a present mode) together with its
queue-family indices, and fails (panics, embedded as `none`) exactly when no
enumerated device qualifies. -/
theorem pick_physical_device_spec (devices : List PhysicalDevice) :
    (∀ d i, pick_physical_device devices = some (d, i) →
      d ∈ devices ∧ MeetsHardRequirements d ∧ i = find_queue_families d ∧
      ∃ l1 l2, devices = l1 ++ d :: l2 ∧
        ∀ e ∈ l1, ¬ MeetsHardRequirements e) ∧
    (pick_physical_device devices = none ↔
      ∀ d ∈ devices, ¬ MeetsHardRequirements d) := by
  constructor
  · intro d i h
    unfold pick_physical_device at h
    rcases hf : devices.find? is_device_suitable with _ | d'
    · rw [hf] at h
      simp at h
    · rw [hf] at h
      simp only [Option.map_some'] at h
      obtain ⟨rfl, rfl⟩ : d' = d ∧ i = find_queue_families d' := by
        have h1 := congrArg (fun o => Option.map Prod.fst o) h
        have h2 := congrArg (fun o => Option.map Prod.snd o) h
        simp at h1 h2
        exact ⟨h1, h2.symm⟩
      obtain ⟨hmem, hsuit, l1, l2, heq, hall⟩ := find_suitable_first devices d' hf
      refine ⟨hmem, (is_device_suitable_iff d').mp hsuit, rfl, l1, l2, heq, ?_⟩
      intro e he hcontra
      exact absurd ((is_device_suitable_iff e).mpr hcontra) (by simp [hall e he])
  · unfold pick_physical_device
    rw [Option.map_eq_none', List.find?_eq_none]
    constructor
    · intro hall d hd hcontra
      exact hall d hd ((is_device_suitable_iff d).mpr hcontra)
    · intro hall d hd hcontra
      exact hall d hd ((is_device_suitable_iff d).mp hcontra)

/-- Witness for C8: with an unsuitable first device (no present-capable
family) and a suitable second one, selection picks the second; on the
suitable device the hard requirements hold. -/
theorem pick_physical_device_spec_witness :
    (⟨[⟨true, true⟩], [0], [⟨50, 0⟩], [2]⟩ : PhysicalDevice) ∈
      [(⟨[⟨true, false⟩], [0], [⟨50, 0⟩], [2]⟩ : PhysicalDevice),
       ⟨[⟨true, true⟩], [0], [⟨50, 0⟩], [2]⟩] ∧
    MeetsHardRequirements ⟨[⟨true, true⟩], [0], [⟨50, 0⟩], [2]⟩ := by
  have h := (pick_physical_device_spec
      [⟨[⟨true, false⟩], [0], [⟨50, 0⟩], [2]⟩,
       ⟨[⟨true, true⟩], [0], [⟨50, 0⟩], [2]⟩]).1
    ⟨[⟨true, true⟩], [0], [⟨50, 0⟩], [2]⟩
    (find_queue_families ⟨[⟨true, true⟩], [0], [⟨50, 0⟩], [2]⟩)
    (by decide)
  exact ⟨h.1, h.2.1⟩

/-! ### The model matrix of the uniform update -/

/-- C7: at elapsed time `0` the model matrix written by the uniform update
is the identity, and at elapsed time `T` it is the rotation of `90° · T`
(converted to radians) about the vertical axis — the `(0, 0, 1)` up axis of
the fixed look-at view. -/
theorem update_uniform_model_rotation :
    update_uniform_model 0 = 1 ∧
    ∀ T : ℝ, update_uniform_model T =
      toHomogeneous (axisRotation look_at_up (degToRad (90 * T))) := by
  constructor
  · have hzero : degToRad 0 = 0 := by
      simp [degToRad]
    ext i j
    fin_cases i <;> fin_cases j <;>
      simp [update_uniform_model, from_angle_z, hzero, Matrix.one_apply,
        Matrix.vecHead, Matrix.vecTail]
  · intro T
    have hangle : degToRad (T * 90) = degToRad (90 * T) := by
      rw [mul_comm]
    ext i j
    fin_cases i <;> fin_cases j <;>
      simp [update_uniform_model, from_angle_z, hangle, toHomogeneous,
        axisRotation, crossMat, look_at_up, Matrix.vecHead, Matrix.vecTail]

end VulkanCube
